import Mathlib

/-!
# Verification of the PTY session manager (`terminal-service.ts`)

A shallow embedding of the terminal session manager: the session registry,
the output scheduler (throttle & batch), the resize suppressor, scrollback
management, and the working-directory resolver.

Modelling conventions:
* Byte/character data is `List Char` (the source stores strings; only
  concatenation, length, `slice` and emptiness are used).
* The two `NodeJS.Timeout` fields are modelled as `Bool` flags meaning
  "a timer for this purpose is currently armed".  `clearTimeout` disarms,
  `setTimeout` arms, and a timer firing consumes the armed timer before its
  callback runs and possibly re-arms it.
* The event loop is modelled by an explicit event type (`Event`): a process
  output chunk arriving, the flush timer firing, the resize settle timer
  firing.  `step` is the per-session transition function; it also reports
  the chunk delivered to data subscribers by that step, if any.
* External effects (`pty.resize`, `pty.kill`) may throw in the source; the
  corresponding model functions take a `Bool` telling whether the external
  call succeeds, so both branches of the `try`/`catch` are covered.
* The filesystem seen by `resolveWorkingDirectory` is an abstract
  `stat : String → Option Bool` (`none` = `statSync` throws,
  `some b` = stat succeeded with `isDirectory() = b`), plus a home
  directory.  The JS function catches every exception, so the model is
  total.
-/

namespace TerminalService

/-- `MAX_SCROLLBACK_SIZE` from the source: maximum scrollback buffer size. -/
def MAX_SCROLLBACK_SIZE : Nat := 50000

/-- `MIN_MAX_SESSIONS` from the source. -/
def MIN_MAX_SESSIONS : Nat := 1

/-- `MAX_MAX_SESSIONS` from the source. -/
def MAX_MAX_SESSIONS : Nat := 500

/-- `OUTPUT_BATCH_SIZE` from the source: batch cap per delivery event. -/
def OUTPUT_BATCH_SIZE : Nat := 4096

/-- Startup value of the module-level `maxSessions` variable:
`parseInt(process.env.TERMINAL_MAX_SESSIONS || "1000", 10)`.
The environment override is modelled as an optional numeric value;
when unset the default is `1000`. -/
def initialMaxSessions : Option Nat → Nat
  | none => 1000
  | some n => n

/-- `setMaxSessions` (lines 206-211): the update is applied only when
`MIN_MAX_SESSIONS ≤ limit ≤ MAX_MAX_SESSIONS`; otherwise the previous
value stays in effect.  `limit` is an `Int` since the JS caller may pass
any number. -/
def setMaxSessions (current : Nat) (limit : Int) : Nat :=
  if MIN_MAX_SESSIONS ≤ limit ∧ limit ≤ MAX_MAX_SESSIONS then limit.toNat
  else current

/-- The mutable per-session delivery state of a `TerminalSession`
(fields `scrollbackBuffer`, `outputBuffer`, `flushTimeout`,
`resizeInProgress`, `resizeDebounceTimeout`).  The immutable descriptive
fields (`id`, `cwd`, `shell`, `createdAt`) and the process handle play no
role in the verified properties and are kept out of the state. -/
structure SessionState where
  scrollbackBuffer : List Char
  outputBuffer : List Char
  flushScheduled : Bool
  resizeInProgress : Bool
  settleScheduled : Bool
  deriving Repr, DecidableEq

/-- The freshly created session record of `createSession` (lines 255-266):
empty buffers, no timers, not suppressed. -/
def newSessionState : SessionState :=
  { scrollbackBuffer := []
    outputBuffer := []
    flushScheduled := false
    resizeInProgress := false
    settleScheduled := false }

/-- Scrollback append with tail truncation (lines 299-304):
`scrollbackBuffer += data`, then if the length exceeds
`MAX_SCROLLBACK_SIZE` keep only the last `MAX_SCROLLBACK_SIZE`
characters (`slice(-MAX_SCROLLBACK_SIZE)`). -/
def appendScrollback (buf data : List Char) : List Char :=
  let b := buf ++ data
  if MAX_SCROLLBACK_SIZE < b.length then b.drop (b.length - MAX_SCROLLBACK_SIZE)
  else b

/-- The `ptyProcess.onData` handler (lines 291-313).  While
`resizeInProgress` the chunk is dropped entirely; otherwise it is appended
to scrollback (tail-truncated) and to the pending output buffer, and a
flush is scheduled if none is. -/
def handleData (s : SessionState) (data : List Char) : SessionState :=
  if s.resizeInProgress then s
  else
    { s with
      scrollbackBuffer := appendScrollback s.scrollbackBuffer data
      outputBuffer := s.outputBuffer ++ data
      flushScheduled := true }

/-- The `flushOutput` closure (lines 271-288).  Returns the updated session
together with the chunk delivered to data subscribers by this flush
(`none` when the buffer was empty and nothing was sent).  When the buffer
exceeds `OUTPUT_BATCH_SIZE`, only the first batch is sent and another
flush is rescheduled for the remainder; otherwise the whole buffer is
sent and the timer field is cleared. -/
def flushOutput (s : SessionState) : SessionState × Option (List Char) :=
  if s.outputBuffer.length = 0 then (s, none)
  else if OUTPUT_BATCH_SIZE < s.outputBuffer.length then
    ({ s with
        outputBuffer := s.outputBuffer.drop OUTPUT_BATCH_SIZE
        flushScheduled := true },
      some (s.outputBuffer.take OUTPUT_BATCH_SIZE))
  else
    ({ s with outputBuffer := [], flushScheduled := false },
      some s.outputBuffer)

/-- `resize` on a found session (lines 351-377), with the registry lookup
factored out.  `ptyOk` tells whether `session.pty.resize(cols, rows)`
succeeds; when it throws, the `catch` clears `resizeInProgress` and the
call reports failure.  When `suppressOutput` is set, the handler first
raises the suppression flag and cancels any pending settle timer, and on
success arms a fresh settle timer. -/
def resizeSession (s : SessionState) (suppressOutput ptyOk : Bool) :
    SessionState × Bool :=
  let s1 :=
    if suppressOutput then
      { s with resizeInProgress := true, settleScheduled := false }
    else s
  if ptyOk then
    (if suppressOutput then { s1 with settleScheduled := true } else s1, true)
  else
    ({ s1 with resizeInProgress := false }, false)

/-- Asynchronous per-session events: a process output chunk arriving
(`ptyProcess.onData`), the flush timer firing, and the resize settle
timer firing. -/
inductive Event where
  | data (chunk : List Char)
  | flushFire
  | settleFire
  deriving Repr, DecidableEq

/-- One step of the per-session event loop.  A timer event is a no-op when
no such timer is armed.  The settle timer callback (lines 366-369) clears
the suppression flag and the timer field. -/
def step (s : SessionState) (e : Event) : SessionState × Option (List Char) :=
  match e with
  | Event.data d => (handleData s d, none)
  | Event.flushFire =>
      if s.flushScheduled then flushOutput s else (s, none)
  | Event.settleFire =>
      if s.settleScheduled then
        ({ s with resizeInProgress := false, settleScheduled := false }, none)
      else (s, none)

/-- Run a sequence of events, collecting the chunks delivered to data
subscribers in order. -/
def run (s : SessionState) : List Event → SessionState × List (List Char)
  | [] => (s, [])
  | e :: es =>
      let p := step s e
      let q := run p.1 es
      (q.1, p.2.toList ++ q.2)

/-! ## The session registry -/

/-- Lookup in the registry's `Map`, keys unique. -/
def mapGet : List (String × SessionState) → String → Option SessionState
  | [], _ => none
  | (k, v) :: rest, id => if k = id then some v else mapGet rest id

/-- `Map.set`: replace the entry when the key is present, append otherwise. -/
def mapSet : List (String × SessionState) → String → SessionState →
    List (String × SessionState)
  | [], id, v => [(id, v)]
  | (k, w) :: rest, id, v =>
      if k = id then (id, v) :: rest else (k, w) :: mapSet rest id v

/-- `Map.delete`: remove the entry with the given key, if present. -/
def mapDelete : List (String × SessionState) → String →
    List (String × SessionState)
  | [], _ => []
  | (k, v) :: rest, id => if k = id then rest else (k, v) :: mapDelete rest id

/-- The `TerminalService` instance state: the session map, the current
`maxSessions` limit, and the two subscriber sets (subscribers are opaque,
identified by numbers). -/
structure ServiceState where
  sessions : List (String × SessionState)
  maxSessions : Nat
  dataCallbacks : List Nat
  exitCallbacks : List Nat
  deriving Repr, DecidableEq

/-- A service as constructed by `new TerminalService()` with capacity `c`:
no sessions, no subscribers. -/
def initialState (c : Nat) : ServiceState :=
  { sessions := [], maxSessions := c, dataCallbacks := [], exitCallbacks := [] }

/-- `createSession` (lines 217-325), restricted to registry bookkeeping.
When `sessions.size >= maxSessions` the call returns `null` before any
side effect.  Otherwise a fresh session record is inserted under the
generated id (passed here as a parameter) and its handle returned.
The external `pty.spawn` sits between the capacity check and the insert;
if it throws, the exception propagates and nothing is inserted, so every
successful insert goes through the guard below. -/
def createSession (st : ServiceState) (id : String) :
    ServiceState × Option String :=
  if st.maxSessions ≤ st.sessions.length then (st, none)
  else
    ({ st with sessions := mapSet st.sessions id newSessionState }, some id)

/-- A sequence of `createSession` calls (return values discarded). -/
def createMany (st : ServiceState) (ids : List String) : ServiceState :=
  ids.foldl (fun acc id => (createSession acc id).1) st

/-- Ordered observable effects of removing a session: the registry entry
disappearing and an exit subscriber being invoked. -/
inductive Notification where
  | removedFromRegistry (id : String)
  | exitNotified (id : String) (exitCode : Int)
  deriving Repr, DecidableEq

/-- The `ptyProcess.onExit` handler (lines 316-321): delete the entry from
the registry, then invoke every exit subscriber.  The returned
`Option SessionState` is the session object as the handler's closure
leaves it — the handler touches none of its fields, in particular neither
timer flag.  The notification list records that the registry removal
happens before the exit subscribers run. -/
def handleExit (st : ServiceState) (id : String) (exitCode : Int) :
    ServiceState × Option SessionState × List Notification :=
  ({ st with sessions := mapDelete st.sessions id },
    mapGet st.sessions id,
    Notification.removedFromRegistry id ::
      st.exitCallbacks.map (fun _ => Notification.exitNotified id exitCode))

/-- `killSession` (lines 383-411).  On a found session: disarm the flush
timer, disarm the settle timer, `pty.kill("SIGKILL")` (modelled by
`ptyKillOk`; on a throw the `catch` still deletes the entry and returns
`false`), delete the entry.  The returned `Option SessionState` is the
session object after the handler ran (timers cleared in both branches,
since the timer cleanup precedes the kill call). -/
def killSession (st : ServiceState) (id : String) (ptyKillOk : Bool) :
    ServiceState × Bool × Option SessionState :=
  match mapGet st.sessions id with
  | none => (st, false, none)
  | some s =>
      let s1 := { s with flushScheduled := false, settleScheduled := false }
      ({ st with sessions := mapDelete st.sessions id }, ptyKillOk, some s1)

/-- `resize` (lines 345-378) at the registry level: unknown ids report
failure without side effects; otherwise the per-session transition of
`resizeSession` is applied. -/
def resize (st : ServiceState) (id : String) (cols rows : Nat)
    (suppressOutput ptyOk : Bool) : ServiceState × Bool :=
  match mapGet st.sessions id with
  | none => (st, false)
  | some s =>
      let p := resizeSession s suppressOutput ptyOk
      ({ st with sessions := mapSet st.sessions id p.1 }, p.2)

/-- `getScrollback` (lines 423-426): `session?.scrollbackBuffer || null` —
both an unknown id and an empty scrollback yield `null`. -/
def getScrollback (st : ServiceState) (id : String) : Option (List Char) :=
  match mapGet st.sessions id with
  | none => none
  | some s =>
      if s.scrollbackBuffer = [] then none else some s.scrollbackBuffer

/-- `getScrollbackAndClearPending` (lines 433-450): on a found session,
clear `outputBuffer`, cancel the flush timer, and return
`scrollbackBuffer || null`. -/
def getScrollbackAndClearPending (st : ServiceState) (id : String) :
    ServiceState × Option (List Char) :=
  match mapGet st.sessions id with
  | none => (st, none)
  | some s =>
      let s1 := { s with outputBuffer := [], flushScheduled := false }
      ({ st with sessions := mapSet st.sessions id s1 },
        if s.scrollbackBuffer = [] then none else some s.scrollbackBuffer)

/-! ## Working-directory resolution -/

/-- The filesystem environment of `resolveWorkingDirectory`: the home
directory and a `statSync` oracle (`none` = throws, `some b` = succeeds
with `isDirectory() = b`). -/
structure FS where
  homeDir : String
  stat : String → Option Bool

/-- The path clean-up of lines 167-173: `trim`, then collapse a leading
double slash unless it introduces a `//wsl` path. -/
def normalizeCwd (requestedCwd : String) : String :=
  let cwd := requestedCwd.trim
  if cwd.startsWith ("//") ∧ ¬ cwd.startsWith ("//wsl") then cwd.drop 1
  else cwd

/-- `resolveWorkingDirectory` (lines 159-187).  A missing (`undefined`) or
empty requested path (both falsy in JS) yields the home directory;
otherwise the normalized path is returned exactly when `statSync`
succeeds and reports a directory, and the home directory on every
failure.  Total: the source catches every exception. -/
def resolveWorkingDirectory (fs : FS) (requestedCwd : Option String) : String :=
  match requestedCwd with
  | none => fs.homeDir
  | some req =>
      if req = "" then fs.homeDir
      else
        match fs.stat (normalizeCwd req) with
        | some true => normalizeCwd req
        | some false => fs.homeDir
        | none => fs.homeDir

/-! ## Helper lemmas -/

theorem mapSet_length_le (m : List (String × SessionState)) (id : String)
    (v : SessionState) : (mapSet m id v).length ≤ m.length + 1 := by
  induction m with
  | nil => simp [mapSet]
  | cons p rest ih =>
      obtain ⟨k, w⟩ := p
      by_cases h : k = id <;> simp [mapSet, h]
      omega

theorem mapGet_mapSet_self (m : List (String × SessionState)) (id : String)
    (v : SessionState) : mapGet (mapSet m id v) id = some v := by
  induction m with
  | nil => simp [mapSet, mapGet]
  | cons p rest ih =>
      obtain ⟨k, w⟩ := p
      by_cases h : k = id <;> simp [mapSet, mapGet, h, ih]

theorem createSession_step (st : ServiceState) (id : String)
    (h : st.sessions.length ≤ st.maxSessions) :
    ((createSession st id).1).sessions.length ≤ st.maxSessions ∧
    ((createSession st id).1).maxSessions = st.maxSessions := by
  unfold createSession
  by_cases hc : st.maxSessions ≤ st.sessions.length
  · simp [hc, h]
  · have := mapSet_length_le st.sessions id newSessionState
    simp [hc]
    omega

theorem createMany_invariant (ids : List String) (st : ServiceState)
    (h : st.sessions.length ≤ st.maxSessions) :
    (createMany st ids).sessions.length ≤ (createMany st ids).maxSessions ∧
    (createMany st ids).maxSessions = st.maxSessions := by
  induction ids generalizing st with
  | nil => simpa [createMany] using h
  | cons id rest ih =>
      have hstep := createSession_step st id h
      have hrec := ih (createSession st id).1 (by omega)
      have hcons : createMany st (id :: rest) =
          createMany (createSession st id).1 rest := rfl
      rw [hcons]
      exact ⟨hrec.1, by rw [hrec.2, hstep.2]⟩

/-! ## C1: session capacity -/

/-- C1.  For every sequence of `createSession` calls on a registry
configured with capacity `C`, the number of live sessions never exceeds
`C`; and a `createSession` call made when the live-session count already
equals the configured limit returns `null` and leaves the whole service
state (session map, subscriber sets) unchanged. -/
theorem createSession_capacity (C : Nat) (ids : List String) :
    (createMany (initialState C) ids).sessions.length ≤ C ∧
    ∀ st id, st.sessions.length = st.maxSessions →
      createSession st id = (st, none) := by
  constructor
  · have h := createMany_invariant ids (initialState C) (by simp [initialState])
    have hmax : (createMany (initialState C) ids).maxSessions = C := h.2
    omega
  · intro st id h
    unfold createSession
    simp [h]

/-- Witness for C1 at capacity 1 and a registry already at its limit. -/
theorem createSession_capacity_witness :
    (createMany (initialState 1) ["a", "b"]).sessions.length ≤ 1 ∧
    createSession
        { sessions := [("a", newSessionState)], maxSessions := 1,
          dataCallbacks := [], exitCallbacks := [] } "b" =
      ({ sessions := [("a", newSessionState)], maxSessions := 1,
          dataCallbacks := [], exitCallbacks := [] }, none) :=
  ⟨(createSession_capacity 1 ["a", "b"]).1,
    (createSession_capacity 1 ["a", "b"]).2 _ "b" (by decide)⟩

/-! ## C5: scrollback tail truncation -/

theorem appendScrollback_shift (X d : List Char) :
    appendScrollback (X.drop (X.length - MAX_SCROLLBACK_SIZE)) d =
      (X ++ d).drop ((X ++ d).length - MAX_SCROLLBACK_SIZE) := by
  have hk : X.length - MAX_SCROLLBACK_SIZE ≤ X.length := Nat.sub_le _ _
  have hsplit : X.drop (X.length - MAX_SCROLLBACK_SIZE) ++ d
      = (X ++ d).drop (X.length - MAX_SCROLLBACK_SIZE) :=
    (List.drop_append_of_le_length hk).symm
  unfold appendScrollback
  simp only [hsplit, List.length_drop, List.length_append]
  split
  · rename_i hc
    rw [List.drop_drop]
    exact congrArg (fun n => List.drop n (X ++ d)) (by omega)
  · rename_i hc
    exact congrArg (fun n => List.drop n (X ++ d)) (by omega)

theorem scrollback_foldl (chunks : List (List Char)) (X : List Char) :
    chunks.foldl appendScrollback (X.drop (X.length - MAX_SCROLLBACK_SIZE)) =
      (X ++ chunks.flatten).drop
        ((X ++ chunks.flatten).length - MAX_SCROLLBACK_SIZE) := by
  induction chunks generalizing X with
  | nil => rw [List.flatten_nil, List.append_nil, List.foldl_nil]
  | cons c cs ih =>
      rw [List.foldl_cons, appendScrollback_shift, ih (X ++ c),
        List.flatten_cons, List.append_assoc]

/-- C5.  For every sequence of non-suppressed appends, the scrollback
buffer never exceeds `MAX_SCROLLBACK_SIZE`, and the retained characters
are exactly the most recent `min (total appended) MAX_SCROLLBACK_SIZE`
characters of the concatenation of all appended chunks (oldest dropped
first). -/
theorem scrollback_bounded_and_tail (chunks : List (List Char)) :
    (chunks.foldl appendScrollback []).length ≤ MAX_SCROLLBACK_SIZE ∧
    chunks.foldl appendScrollback [] =
      chunks.flatten.drop (chunks.flatten.length - MAX_SCROLLBACK_SIZE) ∧
    (chunks.foldl appendScrollback []).length =
      min chunks.flatten.length MAX_SCROLLBACK_SIZE := by
  have h := scrollback_foldl chunks []
  simp only [List.drop_nil, List.nil_append] at h
  refine ⟨?_, h, ?_⟩
  · rw [h, List.length_drop]
    omega
  · rw [h, List.length_drop]
    omega

/-! ## C2: output suppression during resize -/

/-- A session that has already buffered one chunk (so a flush is
scheduled), about to be resized. -/
def preSuppressionSession : SessionState := handleData newSessionState ['a']

/-- The session right after `resize(..., suppressOutput=true)` succeeded:
suppressed, with the pre-suppression flush still scheduled. -/
def suppressedSession : SessionState :=
  (resizeSession preSuppressionSession true true).1

/-- C2 counterexample.  A flush scheduled before suppression began fires
during the suppression window and delivers the pre-suppression byte to
the data subscribers while `resizeInProgress` is still set: delivery
during the suppression window is not empty. -/
theorem suppressed_window_delivery :
    suppressedSession.resizeInProgress = true ∧
    (step suppressedSession Event.flushFire).2 = some ['a'] ∧
    ((step suppressedSession Event.flushFire).1).resizeInProgress = true := by
  decide

theorem step_suppressed (s : SessionState) (e : Event)
    (hs : s.resizeInProgress = true) (he : e ≠ Event.settleFire) :
    ((step s e).1).resizeInProgress = true ∧
    ((step s e).1).scrollbackBuffer = s.scrollbackBuffer ∧
    ((step s e).2).toList.flatten ++ ((step s e).1).outputBuffer
      = s.outputBuffer := by
  cases e with
  | data d => simp [step, handleData, hs]
  | flushFire =>
      by_cases hf : s.flushScheduled
      · unfold step flushOutput
        by_cases h0 : s.outputBuffer.length = 0
        · simp [hf, h0, hs]
        · by_cases hb : OUTPUT_BATCH_SIZE < s.outputBuffer.length
          · simp [hf, h0, hb, hs, List.take_append_drop]
          · simp [hf, h0, hb, hs]
      · simp [step, hf, hs]
  | settleFire => exact absurd rfl he

/-- C2 amended.  While a session is suppressed, for every interleaving of
output arrivals and flush firings (no settle firing), the scrollback
never changes, the session stays suppressed, and every byte delivered to
subscribers comes from `pendingOutput` as it stood when the window was
entered (deliveries followed by the remaining buffer reconstruct exactly
the initial `pendingOutput`); in particular no byte arriving during
suppression is stored or ever delivered. -/
theorem suppressed_drops_new_output (s : SessionState) (es : List Event)
    (hs : s.resizeInProgress = true)
    (hes : ∀ e ∈ es, e ≠ Event.settleFire) :
    ((run s es).1).scrollbackBuffer = s.scrollbackBuffer ∧
    ((run s es).1).resizeInProgress = true ∧
    ((run s es).2).flatten ++ ((run s es).1).outputBuffer
      = s.outputBuffer := by
  induction es generalizing s with
  | nil => exact ⟨rfl, hs, rfl⟩
  | cons e rest ih =>
      have hrest : ∀ e' ∈ rest, e' ≠ Event.settleFire :=
        fun e' h' => hes e' (List.mem_cons_of_mem _ h')
      have hhead := step_suppressed s e hs (hes e (List.mem_cons_self _ _))
      have hrun1 : (run s (e :: rest)).1 = (run (step s e).1 rest).1 := rfl
      have hrun2 : (run s (e :: rest)).2
          = ((step s e).2).toList ++ (run (step s e).1 rest).2 := rfl
      have hih := ih (step s e).1 hhead.1 hrest
      refine ⟨?_, ?_, ?_⟩
      · rw [hrun1, hih.1, hhead.2.1]
      · rw [hrun1]
        exact hih.2.1
      · rw [hrun1, hrun2, List.flatten_append, List.append_assoc, hih.2.2,
          hhead.2.2]

/-- Witness for the C2 amended theorem: a suppressed session with one
pending byte, receiving a fresh chunk and a flush firing. -/
theorem suppressed_drops_new_output_witness :
    ((run ⟨['s'], ['p'], true, true, true⟩
        [Event.data ['x'], Event.flushFire]).1).scrollbackBuffer = ['s'] ∧
    ((run ⟨['s'], ['p'], true, true, true⟩
        [Event.data ['x'], Event.flushFire]).1).resizeInProgress = true ∧
    ((run ⟨['s'], ['p'], true, true, true⟩
        [Event.data ['x'], Event.flushFire]).2).flatten ++
      ((run ⟨['s'], ['p'], true, true, true⟩
        [Event.data ['x'], Event.flushFire]).1).outputBuffer = ['p'] :=
  suppressed_drops_new_output ⟨['s'], ['p'], true, true, true⟩
    [Event.data ['x'], Event.flushFire] rfl (by decide)

/-! ## C4: a 10,000-byte burst batches as 4096 / 4096 / 1808 -/

theorem run_nil (s : SessionState) : run s [] = (s, []) := rfl

theorem run_cons (s : SessionState) (e : Event) (es : List Event) :
    run s (e :: es)
      = ((run (step s e).1 es).1,
          ((step s e).2).toList ++ (run (step s e).1 es).2) := rfl

/-- C4.  A session in the `Normal` state that receives a single burst of
10,000 characters delivers, over the three flushes it schedules, exactly
three events of sizes 4096, 4096 and 1808, in order, whose concatenation
is the original burst. -/
theorem burst_batches (big : List Char) (h : big.length = 10000) :
    ((run newSessionState
        [Event.data big, Event.flushFire, Event.flushFire,
          Event.flushFire]).2).map List.length = [4096, 4096, 1808] ∧
    ((run newSessionState
        [Event.data big, Event.flushFire, Event.flushFire,
          Event.flushFire]).2).flatten = big := by
  have e1 : step newSessionState (Event.data big)
      = (⟨big, big, true, false, false⟩, none) := by
    simp [step, handleData, newSessionState, appendScrollback,
      MAX_SCROLLBACK_SIZE, h]
  have e2 : step ⟨big, big, true, false, false⟩ Event.flushFire
      = (⟨big, big.drop 4096, true, false, false⟩,
          some (big.take 4096)) := by
    simp [step, flushOutput, OUTPUT_BATCH_SIZE, h]
  have e3 : step ⟨big, big.drop 4096, true, false, false⟩ Event.flushFire
      = (⟨big, (big.drop 4096).drop 4096, true, false, false⟩,
          some ((big.drop 4096).take 4096)) := by
    simp [step, flushOutput, OUTPUT_BATCH_SIZE, List.length_drop, h]
  have e4 : step ⟨big, (big.drop 4096).drop 4096, true, false, false⟩
        Event.flushFire
      = (⟨big, [], false, false, false⟩,
          some ((big.drop 4096).drop 4096)) := by
    simp [step, flushOutput, OUTPUT_BATCH_SIZE, List.length_drop, h]
  have hrun : run newSessionState
      [Event.data big, Event.flushFire, Event.flushFire, Event.flushFire]
      = (⟨big, [], false, false, false⟩,
          [big.take 4096, (big.drop 4096).take 4096,
            (big.drop 4096).drop 4096]) := by
    simp only [run_cons, run_nil, e1, e2, e3, e4, Option.toList,
      List.cons_append, List.nil_append]
  rw [hrun]
  constructor
  · simp [List.length_take, List.length_drop, h]
  · show big.take 4096 ++ ((big.drop 4096).take 4096 ++
      ((big.drop 4096).drop 4096 ++ [])) = big
    rw [List.append_nil, List.take_append_drop, List.take_append_drop]

/-- Witness for C4 at a concrete 10,000-character burst. -/
theorem burst_batches_witness :
    (List.replicate 10000 'a').length = 10000 ∧
    ((run newSessionState
        [Event.data (List.replicate 10000 'a'), Event.flushFire,
          Event.flushFire, Event.flushFire]).2).map List.length
      = [4096, 4096, 1808] ∧
    ((run newSessionState
        [Event.data (List.replicate 10000 'a'), Event.flushFire,
          Event.flushFire, Event.flushFire]).2).flatten
      = List.replicate 10000 'a' :=
  ⟨by rw [List.length_replicate],
    (burst_batches (List.replicate 10000 'a') (by rw [List.length_replicate])).1,
    (burst_batches (List.replicate 10000 'a') (by rw [List.length_replicate])).2⟩

/-! ## C6: pending output after a flush -/

/-- A session with 10,000 buffered characters and a flush scheduled. -/
def bigBufferSession : SessionState :=
  { newSessionState with
      outputBuffer := List.replicate 10000 'a'
      flushScheduled := true }

/-- C6 counterexample.  A single flush on a session with 10,000 pending
characters leaves 5904 pending characters — more than the 4096
batch-send threshold — so "pendingOutput never exceeds the threshold
after a flush completes" fails for a single flush. -/
theorem flush_leaves_oversized_pending :
    ((step bigBufferSession Event.flushFire).1).outputBuffer.length = 5904 ∧
    OUTPUT_BATCH_SIZE <
      ((step bigBufferSession Event.flushFire).1).outputBuffer.length := by
  have h : ((step bigBufferSession Event.flushFire).1).outputBuffer.length
      = 5904 := by
    rw [step]
    simp only [bigBufferSession, newSessionState]
    rw [flushOutput]
    simp only [List.length_replicate]
    norm_num [OUTPUT_BATCH_SIZE, List.length_drop, List.length_replicate]
  refine ⟨h, ?_⟩
  rw [h]
  norm_num [OUTPUT_BATCH_SIZE]

/-- C6 amended.  After a single flush completes, either nothing was
pending and the state is untouched, or the whole buffer (at most the
batch cap) was delivered and the buffer drained with no flush
rescheduled, or exactly the first batch-cap characters were delivered
and another flush was rescheduled for the remainder — the remainder may
still exceed the threshold, but only in the case where a flush remains
scheduled. -/
theorem flushOutput_postcondition (s : SessionState) :
    (s.outputBuffer = [] ∧ flushOutput s = (s, none)) ∨
    (OUTPUT_BATCH_SIZE < s.outputBuffer.length ∧
      (flushOutput s).2 = some (s.outputBuffer.take OUTPUT_BATCH_SIZE) ∧
      ((flushOutput s).1).outputBuffer
        = s.outputBuffer.drop OUTPUT_BATCH_SIZE ∧
      ((flushOutput s).1).flushScheduled = true) ∨
    (s.outputBuffer ≠ [] ∧ s.outputBuffer.length ≤ OUTPUT_BATCH_SIZE ∧
      (flushOutput s).2 = some s.outputBuffer ∧
      ((flushOutput s).1).outputBuffer = [] ∧
      ((flushOutput s).1).flushScheduled = false) := by
  unfold flushOutput
  by_cases h0 : s.outputBuffer.length = 0
  · exact Or.inl ⟨List.length_eq_zero.mp h0, by simp [h0]⟩
  · by_cases hb : OUTPUT_BATCH_SIZE < s.outputBuffer.length
    · exact Or.inr (Or.inl ⟨hb, by simp [h0, hb], by simp [h0, hb],
        by simp [h0, hb]⟩)
    · refine Or.inr (Or.inr ⟨?_, by omega, by simp [h0, hb],
        by simp [h0, hb], by simp [h0, hb]⟩)
      intro hnil
      exact h0 (by simp [hnil])

/-! ## C3: timer cancellation on session removal -/

/-- A session with both timers armed and one pending character, whose
process is about to exit. -/
def exitingSession : SessionState :=
  { scrollbackBuffer := ['x']
    outputBuffer := ['x']
    flushScheduled := true
    resizeInProgress := false
    settleScheduled := true }

/-- A registry holding `exitingSession` under id `"t1"`, with one data and
one exit subscriber. -/
def exitingService : ServiceState :=
  { sessions := [("t1", exitingSession)]
    maxSessions := 10
    dataCallbacks := [0]
    exitCallbacks := [0] }

/-- C3 failing input.  The `onExit` handler removes the registry entry
before notifying exit subscribers — that part holds — but it cancels
neither timer: the session object the armed timers reference keeps
`flushScheduled` and `settleScheduled` set, and the still-armed flush
timer then fires and delivers the stale byte for the removed session.
`killSession`, by contrast, clears both flags before removal. -/
theorem exit_leaves_timers_armed :
    mapGet ((handleExit exitingService "t1" 0).1).sessions "t1" = none ∧
    (handleExit exitingService "t1" 0).2.1 = some exitingSession ∧
    exitingSession.flushScheduled = true ∧
    exitingSession.settleScheduled = true ∧
    (step exitingSession Event.flushFire).2 = some ['x'] ∧
    (handleExit exitingService "t1" 0).2.2
      = [Notification.removedFromRegistry "t1",
          Notification.exitNotified "t1" 0] ∧
    (killSession exitingService "t1" true).2.2
      = some { exitingSession with
                flushScheduled := false, settleScheduled := false } := by
  decide

/-! ## C7: max-sessions limit bounds -/

/-- C7 counterexample.  The startup value of `maxSessions` with
`TERMINAL_MAX_SESSIONS` unset is 1000, which lies strictly above
`MAX_MAX_SESSIONS = 500` — the startup value is not within the valid
range. -/
theorem startup_max_sessions_out_of_range :
    initialMaxSessions none = 1000 ∧
    MAX_MAX_SESSIONS < initialMaxSessions none := by
  decide

/-- C7 amended.  The fixed range `[MIN_MAX_SESSIONS, MAX_MAX_SESSIONS]`
constrains only runtime updates: a `setMaxSessions` call with an
out-of-range limit is rejected and the previous value stays in effect,
and an in-range limit is applied, leaving the configured value inside
the range.  The startup value itself (default 1000) is not constrained
to the range. -/
theorem setMaxSessions_spec (current : Nat) (limit : Int) :
    (¬ ((MIN_MAX_SESSIONS : Int) ≤ limit ∧ limit ≤ (MAX_MAX_SESSIONS : Int)) →
      setMaxSessions current limit = current) ∧
    (((MIN_MAX_SESSIONS : Int) ≤ limit ∧ limit ≤ (MAX_MAX_SESSIONS : Int)) →
      setMaxSessions current limit = limit.toNat ∧
      MIN_MAX_SESSIONS ≤ setMaxSessions current limit ∧
      setMaxSessions current limit ≤ MAX_MAX_SESSIONS) := by
  by_cases h : (MIN_MAX_SESSIONS : Int) ≤ limit ∧ limit ≤ (MAX_MAX_SESSIONS : Int)
  · refine ⟨fun hn => absurd h hn, fun _ => ?_⟩
    rw [setMaxSessions, if_pos h]
    refine ⟨rfl, ?_, ?_⟩ <;>
      · simp only [MIN_MAX_SESSIONS, MAX_MAX_SESSIONS] at h ⊢
        omega
  · refine ⟨fun _ => ?_, fun hp => absurd hp h⟩
    rw [setMaxSessions, if_neg h]

/-- Witness for C7 amended: an out-of-range update (501) is rejected, an
in-range update (42) is applied. -/
theorem setMaxSessions_spec_witness :
    setMaxSessions 7 501 = 7 ∧ setMaxSessions 7 42 = Int.toNat 42 :=
  ⟨(setMaxSessions_spec 7 501).1 (by decide),
    ((setMaxSessions_spec 7 42).2 (by decide)).1⟩

/-! ## C8: a failed resize clears the suppression flag -/

/-- C8.  A `resize(id, cols, rows, suppressOutput=true)` call on an
existing session whose underlying `pty.resize` rejects the geometry
change returns `false`, and when it returns, the session's suppression
flag is false (and no settle timer is armed that would have had to clear
it). -/
theorem resize_error_clears_suppression (st : ServiceState) (id : String)
    (cols rows : Nat) (s : SessionState)
    (h : mapGet st.sessions id = some s) :
    (resize st id cols rows true false).2 = false ∧
    mapGet ((resize st id cols rows true false).1).sessions id
      = some { s with resizeInProgress := false, settleScheduled := false } ∧
    (SessionState.resizeInProgress
      { s with resizeInProgress := false, settleScheduled := false }) = false := by
  unfold resize
  rw [h]
  exact ⟨rfl, by simp [resizeSession, mapGet_mapSet_self], rfl⟩

/-- Witness for C8 on a session left suppressed by an earlier resize. -/
theorem resize_error_clears_suppression_witness :
    (resize ⟨[("t1", ⟨[], [], false, true, true⟩)], 10, [], []⟩
        "t1" 80 24 true false).2 = false ∧
    mapGet ((resize ⟨[("t1", ⟨[], [], false, true, true⟩)], 10, [], []⟩
        "t1" 80 24 true false).1).sessions "t1"
      = some ⟨[], [], false, false, false⟩ ∧
    (SessionState.resizeInProgress ⟨[], [], false, false, false⟩) = false :=
  resize_error_clears_suppression
    ⟨[("t1", ⟨[], [], false, true, true⟩)], 10, [], []⟩
    "t1" 80 24 ⟨[], [], false, true, true⟩ (by decide)

/-! ## C9: working-directory resolution -/

/-- C9.  `resolveWorkingDirectory` is a total function (the source catches
every exception): an absent or empty request resolves to the home
directory; whenever `stat` on the normalized path fails or reports a
non-directory, the result is the home directory; and the result is the
(normalized) requested path only when `stat` reports an existing
directory. -/
theorem resolveWorkingDirectory_spec (fs : FS) (requestedCwd : Option String) :
    (requestedCwd = none ∨ requestedCwd = some "" →
      resolveWorkingDirectory fs requestedCwd = fs.homeDir) ∧
    (∀ r, requestedCwd = some r →
      fs.stat (normalizeCwd r) ≠ some true →
      resolveWorkingDirectory fs requestedCwd = fs.homeDir) ∧
    (resolveWorkingDirectory fs requestedCwd = fs.homeDir ∨
      ∃ r, requestedCwd = some r ∧
        resolveWorkingDirectory fs requestedCwd = normalizeCwd r ∧
        fs.stat (normalizeCwd r) = some true) := by
  cases requestedCwd with
  | none => exact ⟨fun _ => rfl, fun r hr _ => Option.noConfusion hr, Or.inl rfl⟩
  | some r =>
      by_cases hre : r = ""
      · have hres : resolveWorkingDirectory fs (some r) = fs.homeDir := by
          simp [resolveWorkingDirectory, hre]
        exact ⟨fun _ => hres, fun r' _ _ => hres, Or.inl hres⟩
      · cases hstat : fs.stat (normalizeCwd r) with
        | none =>
            have hres : resolveWorkingDirectory fs (some r) = fs.homeDir := by
              simp [resolveWorkingDirectory, hre, hstat]
            exact ⟨fun _ => hres, fun r' _ _ => hres, Or.inl hres⟩
        | some b =>
            cases b with
            | false =>
                have hres : resolveWorkingDirectory fs (some r)
                    = fs.homeDir := by
                  simp [resolveWorkingDirectory, hre, hstat]
                exact ⟨fun _ => hres, fun r' _ _ => hres, Or.inl hres⟩
            | true =>
                have hres : resolveWorkingDirectory fs (some r)
                    = normalizeCwd r := by
                  simp [resolveWorkingDirectory, hre, hstat]
                refine ⟨fun hc => ?_, fun r' hr' hne => ?_,
                  Or.inr ⟨r, rfl, hres, hstat⟩⟩
                · rcases hc with hc | hc
                  · exact nomatch hc
                  · exact absurd (Option.some.inj hc) hre
                · cases Option.some.inj hr'
                  exact absurd hstat hne

/-- A filesystem on which every `stat` call fails. -/
def demoFS : FS := { homeDir := "/home/u", stat := fun _ => none }

/-- Witness for C9: a requested directory that cannot be inspected resolves
to the home directory. -/
theorem resolveWorkingDirectory_spec_witness :
    resolveWorkingDirectory demoFS (some "//tmp") = demoFS.homeDir :=
  (resolveWorkingDirectory_spec demoFS (some "//tmp")).2.1 "//tmp" rfl
    (by simp [demoFS])

/-! ## C10: empty scrollback is indistinguishable from an unknown id -/

/-- C10.  For a live session whose scrollback is empty, `getScrollback`
and `getScrollbackAndClearPending` both return `null` — the same value
they return for an unknown id — while `getScrollbackAndClearPending`
still clears the pending buffer and cancels the flush timer of the
session. -/
theorem empty_scrollback_indistinguishable (st : ServiceState) (id : String)
    (s : SessionState) (h : mapGet st.sessions id = some s)
    (he : s.scrollbackBuffer = []) :
    getScrollback st id = none ∧
    (getScrollbackAndClearPending st id).2 = none ∧
    (∀ st2 : ServiceState, mapGet st2.sessions id = none →
      getScrollback st2 id = none) ∧
    mapGet ((getScrollbackAndClearPending st id).1).sessions id
      = some { s with outputBuffer := [], flushScheduled := false } := by
  refine ⟨?_, ?_, ?_, ?_⟩
  · simp [getScrollback, h, he]
  · simp [getScrollbackAndClearPending, h, he]
  · intro st2 h2
    simp [getScrollback, h2]
  · simp [getScrollbackAndClearPending, h, mapGet_mapSet_self]

/-- Witness for C10: a session with empty scrollback, pending output and
an armed flush timer. -/
theorem empty_scrollback_indistinguishable_witness :
    getScrollback ⟨[("t1", ⟨[], ['p'], true, false, false⟩)], 5, [], []⟩
        "t1" = none ∧
    (getScrollbackAndClearPending
        ⟨[("t1", ⟨[], ['p'], true, false, false⟩)], 5, [], []⟩ "t1").2
      = none ∧
    mapGet ((getScrollbackAndClearPending
        ⟨[("t1", ⟨[], ['p'], true, false, false⟩)], 5, [], []⟩
        "t1").1).sessions "t1"
      = some ⟨[], [], false, false, false⟩ :=
  ⟨(empty_scrollback_indistinguishable
      ⟨[("t1", ⟨[], ['p'], true, false, false⟩)], 5, [], []⟩ "t1"
      ⟨[], ['p'], true, false, false⟩ (by decide) rfl).1,
    (empty_scrollback_indistinguishable
      ⟨[("t1", ⟨[], ['p'], true, false, false⟩)], 5, [], []⟩ "t1"
      ⟨[], ['p'], true, false, false⟩ (by decide) rfl).2.1,
    (empty_scrollback_indistinguishable
      ⟨[("t1", ⟨[], ['p'], true, false, false⟩)], 5, [], []⟩ "t1"
      ⟨[], ['p'], true, false, false⟩ (by decide) rfl).2.2.2⟩

end TerminalService
